import Mathlib

/-!
Shallow embedding of the bottrader2026 durable-trading workload
(src/DoTradeTimer/durable_do_trade.py and src/shared/email_utils.py).

Conventions of the embedding:
* Python floats for prices, quantities and z-scores are modelled as `ℚ`;
  every comparison the claims exercise is a strict/loose order comparison,
  which `ℚ` reproduces exactly.
* Each Azure Durable activity is a pure Lean function over an explicit
  environment record that carries the results of its external calls
  (Binance gateway, SQL database).  A call that can raise a Python
  exception is carried as `Except String …`; a Python `try/except` block
  appears as a `match` on that value.
* The orchestrators are pure functions of such environments too.  A call
  `yield context.call_activity_with_retry(…)` whose activity raises after
  the retries are exhausted re-raises inside the orchestrator; since the
  orchestrator bodies contain no `try/except`, that failure terminates the
  orchestration instance as `Failed` (standard Azure Durable Functions
  semantics).  The model's `OrchOutcome.Failed` captures exactly that.
* Externally visible side effects (orders placed, SQL rows written,
  e-mails sent) are returned as explicit `Action` traces; activity-call
  and timer scheduling decisions of an orchestrator are returned as
  `Step` traces.
* Decimal string formatting of prices/quantities ("{:0.2f}") is elided:
  the model keeps the exact rational that is being formatted.
-/

namespace BotTrader

/-- Trade direction as stored in `signal['TradeOrderPriceDirection']`. -/
inductive Direction
  | LONG
  | SHORT
deriving DecidableEq, Repr

/-- A trading signal row, as returned by `GetSignalsActivity`. -/
structure Signal where
  CoinSymbol : String
  TradeOrderPriceDirection : Direction
  CurrentPrice : ℚ
  TargetPrice : ℚ
  StopLossPrice : ℚ
deriving DecidableEq, Repr

/-- One entry of `client.futures_position_information(symbol=…)`. -/
structure PositionInfo where
  symbol : String
  positionAmt : ℚ
deriving DecidableEq, Repr

/-- One entry of `client.futures_account_trades(…)`. -/
structure BTrade where
  price : ℚ
  realizedPnl : ℚ
deriving DecidableEq, Repr

/-- Trading constants from the top of durable_do_trade.py. -/
def DEFAULT_LEVERAGE : ℚ := 5

/-- `MAX_SLIPPAGE_PCT = 0.01` (written as `mkRat` so the kernel can
evaluate it; same for the other decimal literals below). -/
def MAX_SLIPPAGE_PCT : ℚ := mkRat 1 100

/-- `df.RetryOptions(first_retry_interval_in_milliseconds=5000, max_number_of_attempts=3)`. -/
def max_number_of_attempts : Nat := 3

def first_retry_interval_in_milliseconds : Nat := 5000

/-- The scheduler's retry resolution for `call_activity_with_retry`:
attempt numbers `0, 1, …` are tried until one succeeds; once
`maxAttempts` attempts have failed, the last failure is surfaced (raised)
to the orchestrator. -/
def retryResolve {α : Type} : Nat → (Nat → Except String α) → Except String α
  | 0, _ => Except.error "no attempts configured"
  | 1, attempt => attempt 0
  | n + 2, attempt =>
    match attempt 0 with
    | Except.ok a => Except.ok a
    | Except.error _ => retryResolve (n + 1) (fun i => attempt (i + 1))

/-- Externally visible side effects of the activities. -/
inductive Action
  | DeactivateSymbol (symbol reason : String)
  | SetLeverage (symbol : String) (leverage : ℚ)
  | InsertOrderRow (symbol : String) (status : String) (quantity : ℚ)
  | PlaceLimitOrder (symbol : String) (price qty : ℚ)
  | CancelAllOrders (symbol : String)
  | SetOrderStatus (dbId : Nat) (status : String)
  | PlaceTakeProfit (symbol : String) (stopPrice : ℚ)
  | PlaceStopMarket (symbol : String) (stopPrice : ℚ)
  | MarketClose (symbol : String) (qty : ℚ)
  | SendEmail (subject category : String)
deriving DecidableEq, Repr

/-- Scheduling decisions of an orchestrator, in emission order. -/
inductive Step
  | callActivity (name : String)
  | timer
deriving DecidableEq, Repr

/-- Terminal status of an orchestration instance.  `Unfinished` is the
model artefact for a monitoring loop that runs past the supplied list of
wake observations (the real loop would keep waiting). -/
inductive OrchOutcome
  | Completed (result : String)
  | Failed (error : String)
  | Unfinished
deriving DecidableEq, Repr

def OrchOutcome.isCompleted : OrchOutcome → Bool
  | .Completed _ => true
  | _ => false

/-- Python `pat in s` on strings (naive but exact: `splitOn` yields at
least two pieces iff the pattern occurs). -/
def strContains (s pat : String) : Bool := (s.splitOn pat).length ≥ 2

/-! ## PrepareTradeActivity -/

/-- Outcome of `client.futures_change_margin_type(…)`: success, or a
`BinanceAPIException` with its `code` and `message`.  (A non-Binance
exception at this call would fall to the activity's outer handler; that
path is covered by the fallible fields below.) -/
inductive MarginOutcome
  | ok
  | apiError (code : Int) (message : String)
deriving DecidableEq, Repr

/-- External-call results consumed by `PrepareTradeActivity`, in the order
the source makes the calls. -/
structure PrepareEnv where
  /-- `client.futures_position_information(symbol=symbol)` -/
  positions : Except String (List PositionInfo)
  /-- `client.futures_change_margin_type(symbol=symbol, marginType=ISOLATED)` -/
  marginOutcome : MarginOutcome
  /-- `client.futures_symbol_ticker(symbol=symbol)['price']` -/
  tickerPrice : Except String ℚ
  /-- `SELECT PricePrecision, QuantityPrecision FROM CoinInfoTable …` (None → defaults (2,2)) -/
  precisionRow : Option (Nat × Nat)
  /-- `client.futures_account()['totalMarginBalance']` -/
  totalMarginBalance : ℚ
  /-- `os.getenv("TRADE_ALLOCATION_PCT", "0.1")` -/
  allocPct : ℚ
  /-- `SCOPE_IDENTITY()` of the inserted OrderBook row -/
  dbId : Nat
deriving Repr

/-- The dictionary `PrepareTradeActivity` returns to the orchestrator
(`trade_info`).  The activity catches every exception itself, so it is a
total function: its retry policy never fires. -/
structure PrepareResult where
  order_placed : Bool
  reason : String
  order_db_id : Nat
  symbol : String
  direction : Direction
  target_price : ℚ
  stop_loss : ℚ
  p_prec : Nat
  q_prec : Nat
deriving DecidableEq, Repr

def PrepareResult.notPlaced (signal : Signal) (reason : String) : PrepareResult :=
  { order_placed := false, reason := reason, order_db_id := 0,
    symbol := signal.CoinSymbol, direction := signal.TradeOrderPriceDirection,
    target_price := signal.TargetPrice, stop_loss := signal.StopLossPrice,
    p_prec := 0, q_prec := 0 }

/-- `PrepareTradeActivity(signal)`: check for an existing position, set
margin type (deactivating a delisted symbol), check slippage, record the
`Attempted` OrderBook row, and place the two half-size limit orders.
Returns the result dictionary together with the trace of external side
effects it performed. -/
def prepareTrade (signal : Signal) (env : PrepareEnv) : PrepareResult × List Action :=
  let symbol := signal.CoinSymbol
  match env.positions with
  | Except.error e =>
    -- outer `except Exception`: log, alert, return not placed
    (PrepareResult.notPlaced signal e,
     [Action.SendEmail ("Error in PrepareTradeActivity: " ++ symbol) "SystemError"])
  | Except.ok positions =>
    match positions.find? (fun i => i.symbol == symbol) with
    | some pos =>
      if |pos.positionAmt| > 0 then
        (PrepareResult.notPlaced signal ("Position already open for " ++ symbol), [])
      else prepareTradeAfterPositionCheck signal env
    | none => prepareTradeAfterPositionCheck signal env
where
  prepareTradeAfterPositionCheck (signal : Signal) (env : PrepareEnv) :
      PrepareResult × List Action :=
    let symbol := signal.CoinSymbol
    match env.marginOutcome with
    | MarginOutcome.apiError code msg =>
      if code = -1121 ∨ strContains msg "Invalid symbol" then
        -- delisting: UPDATE CoinInfoTable SET IsActive = 0, … ; return not placed
        (PrepareResult.notPlaced signal "Delisted symbol",
         [Action.DeactivateSymbol symbol
            "Delisted / Invalid Symbol detected during trade setup"])
      else
        -- "No need to change margin type" (or other api error): warning only
        prepareTradeAfterMargin signal env []
    | MarginOutcome.ok => prepareTradeAfterMargin signal env []
  prepareTradeAfterMargin (signal : Signal) (env : PrepareEnv)
      (acc : List Action) : PrepareResult × List Action :=
    let symbol := signal.CoinSymbol
    let signal_price := signal.CurrentPrice
    match env.tickerPrice with
    | Except.error e =>
      (PrepareResult.notPlaced signal e,
       acc ++ [Action.SendEmail ("Error in PrepareTradeActivity: " ++ symbol) "SystemError"])
    | Except.ok m_price =>
      let diff := (m_price - signal_price) / signal_price
      if (signal.TradeOrderPriceDirection = Direction.LONG ∧ diff < -MAX_SLIPPAGE_PCT) ∨
         (signal.TradeOrderPriceDirection = Direction.SHORT ∧ diff > MAX_SLIPPAGE_PCT) then
        (PrepareResult.notPlaced signal "Slippage Check Failed", acc)
      else
        let (p_prec, q_prec) := env.precisionRow.getD (2, 2)
        let qty := env.totalMarginBalance * env.allocPct * DEFAULT_LEVERAGE / signal_price / 2
        let p2 := signal_price *
          (if signal.TradeOrderPriceDirection = Direction.LONG
           then mkRat 99 100 else mkRat 101 100)
        ({ order_placed := true, reason := "", order_db_id := env.dbId,
           symbol := symbol, direction := signal.TradeOrderPriceDirection,
           target_price := signal.TargetPrice, stop_loss := signal.StopLossPrice,
           p_prec := p_prec, q_prec := q_prec },
         acc ++
         [Action.SetLeverage symbol DEFAULT_LEVERAGE,
          Action.InsertOrderRow symbol "Attempted" (qty * 2),
          Action.PlaceLimitOrder symbol signal_price qty,
          Action.PlaceLimitOrder symbol p2 qty])

/-! ## CheckPositionActivity -/

/-- `CheckPositionActivity(symbol)`: a bare `try … except: return False`
around the position query, so *any* gateway failure — and a response with
no matching entry (`next` raising `StopIteration`) — comes back as
`false`.  The function is total: the activity never signals failure. -/
def checkPositionActivity (gatewayResult : Except String (List PositionInfo))
    (symbol : String) : Bool :=
  match gatewayResult with
  | Except.error _ => false
  | Except.ok positions =>
    match positions.find? (fun i => i.symbol == symbol) with
    | none => false
    | some pos => |pos.positionAmt| > 0

/-- What the activity executor reports for `CheckPositionActivity`: always
a success carrying the boolean. -/
def checkPositionAttempt (gatewayResult : Except String (List PositionInfo))
    (symbol : String) : Except String Bool :=
  Except.ok (checkPositionActivity gatewayResult symbol)

/-! ## CancelTrade / FinalizeTradeEntry / UpdateOrderBookFinal -/

/-- Side effects of `CancelTradeActivity(trade_info)`. -/
def cancelTradeActivity (ti : PrepareResult) : List Action :=
  [Action.CancelAllOrders ti.symbol,
   Action.SetOrderStatus ti.order_db_id "Cancelled",
   Action.SendEmail ("Trade Cancelled: " ++ ti.symbol) "TradeCancelled"]

/-- Side effects of `FinalizeTradeEntryActivity(trade_info)`. -/
def finalizeTradeEntryActivity (ti : PrepareResult) : List Action :=
  [Action.PlaceTakeProfit ti.symbol ti.target_price,
   Action.PlaceStopMarket ti.symbol ti.stop_loss,
   Action.SetOrderStatus ti.order_db_id "Filled",
   Action.SendEmail ("Trade Entry: " ++ ti.symbol) "TradeEntry"]

/-- The OrderBook row fields written by `UpdateOrderBookFinalActivity`. -/
structure FinalUpdate where
  status : String
  exitType : String
  exitPrice : ℚ
  profitLoss : ℚ
deriving DecidableEq, Repr

/-- `UpdateOrderBookFinalActivity`: sum `realizedPnl` over the trades
returned since entry, take the last trade's price as exit price (0 when
there are none), and set the row to terminal status `Profit/Loss`.
Returns the row update and the reported pnl. -/
def updateOrderBookFinal (exit_type : String) (trades : List BTrade) : FinalUpdate × ℚ :=
  let total_pnl := (trades.map BTrade.realizedPnl).sum
  let exit_price :=
    match trades.getLast? with
    | some t => t.price
    | none => 0
  ({ status := "Profit/Loss", exitType := exit_type,
     exitPrice := exit_price, profitLoss := total_pnl }, total_pnl)

/-! ## send_email_alert (src/shared/email_utils.py) -/

/-- Environment of one `send_email_alert` call. -/
structure EmailEnv where
  /-- `os.getenv("Email_" + config_key)` (None when unset, default "true") -/
  configSetting : Option String
  /-- outcome of `EmailClient.from_connection_string(…)` + `begin_send(message)` -/
  sendOutcome : Except String Unit
deriving Repr

inductive EmailEffect
  | suppressed
  | sent (subject : String)
  | failureLogged (err : String)
deriving DecidableEq, Repr

/-- `send_email_alert(subject, body, config_key)`: suppressed when
`Email_<config_key>` is set to anything but "true"; otherwise the send is
attempted inside `try … except Exception`, whose handler only logs.  The
`Except` result type exposes would-be raised exceptions to the caller:
the function always returns `Except.ok`. -/
def send_email_alert (env : EmailEnv) (subject : String) (_body : String)
    (config_key : String) : Except String EmailEffect :=
  let _env_key := "Email_" ++ config_key
  let is_enabled := (env.configSetting.getD "true").toLower == "true"
  if !is_enabled then
    Except.ok EmailEffect.suppressed
  else
    match env.sendOutcome with
    | Except.ok _ => Except.ok (EmailEffect.sent subject)
    | Except.error e => Except.ok (EmailEffect.failureLogged e)

/-- `Except.ok`-ness as a Bool (the caller-visible "did not raise"). -/
def resolves {α : Type} : Except String α → Bool
  | Except.ok _ => true
  | Except.error _ => false

/-! ## TradeExecutionOrchestrator: monitoring-wake evaluation -/

/-- The z-score block of the monitoring loop (`exit_type` is `None` on
entry to every wake, since any set `exit_type` breaks the loop):
LONG: `if z < -2.0: Level2 elif z > -0.25: Level0`;
SHORT: `if z > 2.0: Level2 elif z < 0.25: Level0`. -/
def zscoreExit (dir : Direction) (z : ℚ) : Option String :=
  match dir with
  | Direction.LONG =>
    if z < -2 then some "Level2"
    else if z > mkRat (-1) 4 then some "Level0"
    else none
  | Direction.SHORT =>
    if z > 2 then some "Level2"
    else if z < mkRat 1 4 then some "Level0"
    else none

/-- One open-position wake of the monitoring loop, after `MonitorStatusActivity`
reported `is_open`: the z-score block followed by
`if not exit_type and elapsed_hours >= 12: exit_type = 'TimeExit'`. -/
def wakeExit (dir : Direction) (z : ℚ) (elapsed_hours : ℚ) : Option String :=
  match zscoreExit dir z with
  | some e => some e
  | none => if elapsed_hours ≥ 12 then some "TimeExit" else none

/-- External-call results for one wake of the monitoring loop. -/
structure WakeObs where
  /-- hours between `context.current_utc_datetime` at the time check and
  `start_time` (the fill time), `(now - start_time).total_seconds()/3600` -/
  elapsedHours : ℚ
  /-- post-retry result of `MonitorStatusActivity` (no internal handler:
  a gateway/db failure exhausting retries raises in the orchestrator) -/
  monitorIsOpen : Except String Bool
  monitorZscore : ℚ
  /-- post-retry result of `DetectTPSLExitActivity` -/
  detectResult : Except String String
  /-- post-retry result of `ClosePositionActivity` -/
  closeResult : Except String Unit
deriving Repr

/-- Outcome of the monitoring loop. -/
inductive LoopOut
  | broke (exit_type : String)
  | crashed (err : String)
  | exhausted
deriving DecidableEq, Repr

/-- The `while True` monitoring loop, driven by the per-wake observation
list (the model's fuel): timer to the next 4h+15m window, monitor status,
then conditions 4 (external close), 1&2 (z-score) and 3 (12h time exit),
closing the position and breaking when an exit type resolves. -/
def monitorLoop (dir : Direction) : List WakeObs → LoopOut × List Step
  | [] => (LoopOut.exhausted, [])
  | w :: rest =>
    let steps := [Step.timer, Step.callActivity "MonitorStatusActivity"]
    match w.monitorIsOpen with
    | Except.error e => (LoopOut.crashed e, steps)
    | Except.ok is_open =>
      if !is_open then
        match w.detectResult with
        | Except.error e =>
          (LoopOut.crashed e, steps ++ [Step.callActivity "DetectTPSLExitActivity"])
        | Except.ok et =>
          (LoopOut.broke et, steps ++ [Step.callActivity "DetectTPSLExitActivity"])
      else
        match wakeExit dir w.monitorZscore w.elapsedHours with
        | some et =>
          match w.closeResult with
          | Except.error e =>
            (LoopOut.crashed e, steps ++ [Step.callActivity "ClosePositionActivity"])
          | Except.ok _ =>
            (LoopOut.broke et, steps ++ [Step.callActivity "ClosePositionActivity"])
        | none =>
          let (out, more) := monitorLoop dir rest
          (out, steps ++ more)

/-! ## TradeExecutionOrchestrator -/

/-- Everything one `TradeExecutionOrchestrator` instance consumes from the
outside world, in program order. -/
structure LifecycleEnv where
  signal : Signal
  prepEnv : PrepareEnv
  /-- gateway response behind the first `CheckPositionActivity` call -/
  gw1 : Except String (List PositionInfo)
  /-- gateway response behind the second `CheckPositionActivity` call -/
  gw2 : Except String (List PositionInfo)
  /-- post-retry result of `CancelTradeActivity` -/
  cancelResult : Except String Unit
  /-- post-retry result of `FinalizeTradeEntryActivity` -/
  finalizeResult : Except String Unit
  wakes : List WakeObs
  /-- `futures_account_trades(symbol, startTime=entry)` in the final report -/
  finalTrades : List BTrade
deriving Repr

/-- `TradeExecutionOrchestrator(context)` as a pure function of its
environment: prepare, 3m+3m entry-wait with fill checks, cancel on entry
timeout, finalize (TP/SL), monitoring loop, final report.  An activity
failure surfacing from `call_activity_with_retry` is uncaught and fails
the instance. -/
def tradeLifecycle (env : LifecycleEnv) : OrchOutcome × List Step :=
  let signal := env.signal
  let symbol := signal.CoinSymbol
  let (trade_info, _prepActs) := prepareTrade signal env.prepEnv
  let steps1 := [Step.callActivity "PrepareTradeActivity"]
  if !trade_info.order_placed then
    (OrchOutcome.Completed ("Trade skipped for " ++ symbol ++ ": " ++ trade_info.reason),
     steps1)
  else
    let filled1 := checkPositionActivity env.gw1 symbol
    let steps2 := steps1 ++ [Step.timer, Step.callActivity "CheckPositionActivity"]
    let (is_filled, steps3) :=
      if !filled1 then
        (checkPositionActivity env.gw2 symbol,
         steps2 ++ [Step.timer, Step.callActivity "CheckPositionActivity"])
      else (filled1, steps2)
    if !is_filled then
      match env.cancelResult with
      | Except.error e =>
        (OrchOutcome.Failed e, steps3 ++ [Step.callActivity "CancelTradeActivity"])
      | Except.ok _ =>
        (OrchOutcome.Completed ("Entry timed out for " ++ symbol ++ "."),
         steps3 ++ [Step.callActivity "CancelTradeActivity"])
    else
      match env.finalizeResult with
      | Except.error e =>
        (OrchOutcome.Failed e, steps3 ++ [Step.callActivity "FinalizeTradeEntryActivity"])
      | Except.ok _ =>
        let steps4 := steps3 ++ [Step.callActivity "FinalizeTradeEntryActivity"]
        let (out, loopSteps) := monitorLoop signal.TradeOrderPriceDirection env.wakes
        let steps5 := steps4 ++ loopSteps
        match out with
        | LoopOut.crashed e => (OrchOutcome.Failed e, steps5)
        | LoopOut.exhausted => (OrchOutcome.Unfinished, steps5)
        | LoopOut.broke exit_type =>
          let (_row, pnl) := updateOrderBookFinal exit_type env.finalTrades
          (OrchOutcome.Completed
             ("Completed " ++ symbol ++ " with " ++ exit_type ++ ". P/L: " ++ toString pnl),
           steps5 ++ [Step.callActivity "UpdateOrderBookFinalActivity"])

/-! ## DoTradeOrchestrator (signal fan-out) -/

/-- `DoTradeOrchestrator(context)`: read the active signals via
`GetSignalsActivity` (with retry; exhaustion raises and, uncaught, fails
the instance), return early on an empty list, otherwise fan out one
`TradeExecutionOrchestrator` sub-orchestration per signal, join on all,
and report the count.  The second component is the number of
sub-orchestrations scheduled. -/
def doTradeOrchestrator (signalsResult : Except String (List Signal)) :
    OrchOutcome × Nat :=
  match signalsResult with
  | Except.error e => (OrchOutcome.Failed e, 0)
  | Except.ok signals =>
    if signals.isEmpty then
      (OrchOutcome.Completed "No signals found.", 0)
    else
      (OrchOutcome.Completed ("Processed " ++ toString signals.length ++ " signals."),
       signals.length)

/-! ## Monitoring-window timer arithmetic (Python datetime model) -/

def isLeapYear (y : Nat) : Bool := (y % 4 = 0 && y % 100 ≠ 0) || y % 400 = 0

def daysInMonth (y m : Nat) : Nat :=
  if m = 2 then (if isLeapYear y then 29 else 28)
  else if m = 4 ∨ m = 6 ∨ m = 9 ∨ m = 11 then 30
  else 31

/-- Python `datetime` field bundle (naive UTC). -/
structure PyDateTime where
  year : Nat
  month : Nat
  day : Nat
  hour : Nat
  minute : Nat
  second : Nat
  microsecond : Nat
deriving DecidableEq, Repr

/-- The range checks `datetime.replace` (and the constructor) perform;
out-of-range fields raise `ValueError`. -/
def validDateTime (dt : PyDateTime) : Bool :=
  1 ≤ dt.month && dt.month ≤ 12 &&
  1 ≤ dt.day && dt.day ≤ daysInMonth dt.year dt.month &&
  dt.hour ≤ 23 && dt.minute ≤ 59 && dt.second ≤ 59 && dt.microsecond ≤ 999999

/-- `now.replace(day=…, hour=…, minute=…, second=…, microsecond=…)`:
`none` models the raised `ValueError`. -/
def pyReplace (dt : PyDateTime) (day hour minute second microsecond : Nat) :
    Option PyDateTime :=
  let r : PyDateTime :=
    { dt with day := day, hour := hour, minute := minute,
              second := second, microsecond := microsecond }
  if validDateTime r then some r else none

/-- The monitoring loop's wake-time computation:
`next_hour = ((now.hour // 4) + 1) * 4`; when that reaches 24 the code
does `now.replace(day=now.day+1, hour=0, minute=15, …)`, otherwise
`now.replace(hour=next_hour, minute=15, …)`. -/
def nextMonitorCheck (now : PyDateTime) : Option PyDateTime :=
  let next_hour := ((now.hour / 4) + 1) * 4
  if next_hour ≥ 24 then
    pyReplace now (now.day + 1) 0 15 0 0
  else
    pyReplace now now.day next_hour 15 0 0

/-! ## Theorems -/

/-- Numeric identity for the `-0.25` threshold. -/
theorem mkRat_neg_one_four : mkRat (-1) 4 = -(1/4 : ℚ) := by
  with_unfolding_all rfl

/-- Numeric identity for the `0.25` threshold. -/
theorem mkRat_one_four : mkRat 1 4 = (1/4 : ℚ) := by
  with_unfolding_all rfl

/-- Claim C1: on every monitoring wake with the position still open, a
LONG trade exits `Level2` when `z < -2.0` and `Level0` when `z > -0.25`
(SHORT mirrored: `Level2` when `z > 2.0`, `Level0` when `z < 0.25`); the
z-score block yields at most one exit with `Level2` taking priority;
`TimeExit` fires only when no z-score exit fired that wake and at least 12
hours have elapsed since fill; and for `z = -2.5` on a LONG trade the exit
is `Level2` even when more than 12 hours have elapsed.  The final conjunct
ties the per-wake evaluation to the monitoring loop. -/
theorem C1_wake_exit_priority :
    (∀ z e : ℚ, z < -2 → wakeExit Direction.LONG z e = some "Level2") ∧
    (∀ z e : ℚ, z > mkRat (-1) 4 → wakeExit Direction.LONG z e = some "Level0") ∧
    (∀ z e : ℚ, z > 2 → wakeExit Direction.SHORT z e = some "Level2") ∧
    (∀ z e : ℚ, z < mkRat 1 4 → wakeExit Direction.SHORT z e = some "Level0") ∧
    (∀ (dir : Direction) (z e : ℚ) (et : String),
       zscoreExit dir z = some et → wakeExit dir z e = some et) ∧
    (∀ (dir : Direction) (z e : ℚ),
       zscoreExit dir z = none → 12 ≤ e → wakeExit dir z e = some "TimeExit") ∧
    (∀ (dir : Direction) (z e : ℚ),
       zscoreExit dir z = none → e < 12 → wakeExit dir z e = none) ∧
    (∀ e : ℚ, wakeExit Direction.LONG (mkRat (-5) 2) e = some "Level2") ∧
    (∀ (dir : Direction) (w : WakeObs) (rest : List WakeObs) (et : String),
       w.monitorIsOpen = Except.ok true →
       wakeExit dir w.monitorZscore w.elapsedHours = some et →
       w.closeResult = Except.ok () →
       (monitorLoop dir (w :: rest)).1 = LoopOut.broke et) := by
  refine ⟨?_, ?_, ?_, ?_, ?_, ?_, ?_, ?_, ?_⟩
  · intro z e h
    simp [wakeExit, zscoreExit, h]
  · intro z e h
    have h' : -(1/4 : ℚ) < z := by rw [← mkRat_neg_one_four]; exact h
    have h2 : ¬(z < -2) := by linarith
    simp only [wakeExit, zscoreExit]
    rw [if_neg h2, if_pos h]
  · intro z e h
    simp [wakeExit, zscoreExit, h]
  · intro z e h
    have h' : z < (1/4 : ℚ) := by rw [← mkRat_one_four]; exact h
    have h2 : ¬(z > 2) := by linarith
    simp only [wakeExit, zscoreExit]
    rw [if_neg (by exact fun hc => h2 hc), if_pos h]
  · intro dir z e et h
    simp [wakeExit, h]
  · intro dir z e h h12
    simp [wakeExit, h, h12]
  · intro dir z e h h12
    simp [wakeExit, h, not_le.mpr h12]
  · intro e
    have h : (mkRat (-5) 2 : ℚ) < -2 := by with_unfolding_all decide
    simp [wakeExit, zscoreExit, h]
  · intro dir w rest et hopen hexit hclose
    simp [monitorLoop, hopen, hexit, hclose]

/-- Witness for C1 at concrete inputs: z = -2.5, LONG, 13 elapsed hours
resolves to `Level2`; a z-free wake at 13 hours resolves to `TimeExit`. -/
theorem C1_wake_exit_priority_witness :
    wakeExit Direction.LONG (mkRat (-5) 2) 13 = some "Level2" ∧
    wakeExit Direction.LONG (-1) 13 = some "TimeExit" := by
  constructor
  · exact C1_wake_exit_priority.1 (mkRat (-5) 2) 13 (by with_unfolding_all decide)
  · exact C1_wake_exit_priority.2.2.2.2.2.1 Direction.LONG (-1) 13
      (by with_unfolding_all decide) (by with_unfolding_all decide)

/-! ### C2: slippage check -/

/-- Concrete fixture: a LONG signal at price 100. -/
def sigLong100 : Signal :=
  { CoinSymbol := "BTCUSDT", TradeOrderPriceDirection := Direction.LONG,
    CurrentPrice := 100, TargetPrice := 110, StopLossPrice := 95 }

/-- Concrete fixture: no open position, margin change succeeds, ticker
returns the given market price. -/
def envMarket (m : ℚ) : PrepareEnv :=
  { positions := Except.ok [], marginOutcome := MarginOutcome.ok,
    tickerPrice := Except.ok m, precisionRow := some (2, 3),
    totalMarginBalance := 1000, allocPct := mkRat 1 10, dbId := 7 }

/-- Claim C2 as stated is false: for a LONG trade whose market price is
2% ABOVE the signal price (relative difference +2%, magnitude > 1%), the
code does not skip — it inserts the order row and places both limit
orders. -/
theorem C2_counterexample_favourable_slippage_not_skipped :
    ((102 - 100 : ℚ) / 100 > MAX_SLIPPAGE_PCT) ∧
    (prepareTrade sigLong100 (envMarket 102)).1.order_placed = true ∧
    (prepareTrade sigLong100 (envMarket 102)).2 =
      [Action.SetLeverage "BTCUSDT" 5,
       Action.InsertOrderRow "BTCUSDT" "Attempted" 5,
       Action.PlaceLimitOrder "BTCUSDT" 100 (mkRat 5 2),
       Action.PlaceLimitOrder "BTCUSDT" 99 (mkRat 5 2)] := by
  refine ⟨by with_unfolding_all decide, ?_, ?_⟩ <;> with_unfolding_all decide

/-- Claim C2 amended: the slippage skip is direction-dependent — a LONG
signal is skipped only when the market has moved more than 1% BELOW the
signal price (`diff < -0.01`), a SHORT signal only when more than 1%
above (`diff > 0.01`).  When the skip fires, no order row is inserted, no
limit order is placed (the action trace is empty), and the lifecycle
completes as skipped.  The spec's concrete case (signal 100, LONG, market
98.9) falls in the LONG skip region. -/
theorem C2_slippage_skip_directional (signal : Signal) (env : PrepareEnv) (m : ℚ)
    (hpos : env.positions = Except.ok [])
    (hmargin : env.marginOutcome = MarginOutcome.ok)
    (htick : env.tickerPrice = Except.ok m)
    (hslip : (signal.TradeOrderPriceDirection = Direction.LONG ∧
                (m - signal.CurrentPrice) / signal.CurrentPrice < -MAX_SLIPPAGE_PCT) ∨
             (signal.TradeOrderPriceDirection = Direction.SHORT ∧
                (m - signal.CurrentPrice) / signal.CurrentPrice > MAX_SLIPPAGE_PCT)) :
    prepareTrade signal env =
      (PrepareResult.notPlaced signal "Slippage Check Failed", []) ∧
    (∀ lenv : LifecycleEnv, lenv.signal = signal → lenv.prepEnv = env →
       (tradeLifecycle lenv).1 =
         OrchOutcome.Completed
           ("Trade skipped for " ++ signal.CoinSymbol ++ ": " ++ "Slippage Check Failed")) := by
  have hmain : prepareTrade signal env =
      (PrepareResult.notPlaced signal "Slippage Check Failed", []) := by
    simp only [prepareTrade, hpos, List.find?]
    simp only [prepareTrade.prepareTradeAfterPositionCheck, hmargin]
    simp only [prepareTrade.prepareTradeAfterMargin, htick]
    rw [if_pos hslip]
  refine ⟨hmain, ?_⟩
  intro lenv h1 h2
  simp [tradeLifecycle, h1, h2, hmain, PrepareResult.notPlaced]

/-- Witness for C2 (amended) at the spec's concrete input: signal price
100, direction LONG, market price 98.9 — skipped with no orders placed,
and the lifecycle exits as skipped. -/
theorem C2_slippage_skip_directional_witness :
    prepareTrade sigLong100 (envMarket (mkRat 989 10)) =
      (PrepareResult.notPlaced sigLong100 "Slippage Check Failed", []) ∧
    (∀ lenv : LifecycleEnv, lenv.signal = sigLong100 →
       lenv.prepEnv = envMarket (mkRat 989 10) →
       (tradeLifecycle lenv).1 =
         OrchOutcome.Completed
           ("Trade skipped for " ++ sigLong100.CoinSymbol ++ ": " ++ "Slippage Check Failed")) :=
  C2_slippage_skip_directional sigLong100 (envMarket (mkRat 989 10)) (mkRat 989 10)
    rfl rfl rfl
    (Or.inl ⟨rfl, by with_unfolding_all decide⟩)

/-! ### C3: entry timeout -/

/-- Claim C3: when the trade was placed and `CheckPositionActivity`
reports unfilled after both 3-minute timers, the lifecycle calls
`CancelTradeActivity` (which cancels the open orders and sets the order
row to `Cancelled`), returns the entry-timeout result, and never reaches
the finalize step, the monitoring loop, or the final report. -/
theorem C3_entry_timeout (env : LifecycleEnv)
    (hplaced : (prepareTrade env.signal env.prepEnv).1.order_placed = true)
    (hc1 : checkPositionActivity env.gw1 env.signal.CoinSymbol = false)
    (hc2 : checkPositionActivity env.gw2 env.signal.CoinSymbol = false)
    (hcancel : env.cancelResult = Except.ok ()) :
    (tradeLifecycle env).1 =
      OrchOutcome.Completed ("Entry timed out for " ++ env.signal.CoinSymbol ++ ".") ∧
    Step.callActivity "CancelTradeActivity" ∈ (tradeLifecycle env).2 ∧
    Step.callActivity "FinalizeTradeEntryActivity" ∉ (tradeLifecycle env).2 ∧
    Step.callActivity "MonitorStatusActivity" ∉ (tradeLifecycle env).2 ∧
    Step.callActivity "UpdateOrderBookFinalActivity" ∉ (tradeLifecycle env).2 ∧
    Action.CancelAllOrders (prepareTrade env.signal env.prepEnv).1.symbol
      ∈ cancelTradeActivity (prepareTrade env.signal env.prepEnv).1 ∧
    Action.SetOrderStatus (prepareTrade env.signal env.prepEnv).1.order_db_id "Cancelled"
      ∈ cancelTradeActivity (prepareTrade env.signal env.prepEnv).1 := by
  obtain ⟨ti, acts, hp⟩ : ∃ ti acts, prepareTrade env.signal env.prepEnv = (ti, acts) :=
    ⟨_, _, rfl⟩
  rw [hp] at hplaced
  have hplaced' : ti.order_placed = true := hplaced
  have key : tradeLifecycle env =
      (OrchOutcome.Completed ("Entry timed out for " ++ env.signal.CoinSymbol ++ "."),
       [Step.callActivity "PrepareTradeActivity",
        Step.timer, Step.callActivity "CheckPositionActivity",
        Step.timer, Step.callActivity "CheckPositionActivity",
        Step.callActivity "CancelTradeActivity"]) := by
    simp [tradeLifecycle, hp, hplaced', hc1, hc2, hcancel]
  rw [key, hp]
  refine ⟨rfl, ?_, ?_, ?_, ?_, ?_, ?_⟩ <;> simp [cancelTradeActivity]

/-- Concrete lifecycle fixture for the entry-timeout path: market price
equals signal price (no slippage), no position appears at either fill
check. -/
def envEntryTimeout : LifecycleEnv :=
  { signal := sigLong100, prepEnv := envMarket 100,
    gw1 := Except.ok [], gw2 := Except.ok [],
    cancelResult := Except.ok (), finalizeResult := Except.ok (),
    wakes := [], finalTrades := [] }

/-- Witness for C3 at the concrete fixture. -/
theorem C3_entry_timeout_witness :
    (tradeLifecycle envEntryTimeout).1 =
      OrchOutcome.Completed
        ("Entry timed out for " ++ envEntryTimeout.signal.CoinSymbol ++ ".") ∧
    Step.callActivity "CancelTradeActivity" ∈ (tradeLifecycle envEntryTimeout).2 ∧
    Step.callActivity "FinalizeTradeEntryActivity" ∉ (tradeLifecycle envEntryTimeout).2 ∧
    Step.callActivity "MonitorStatusActivity" ∉ (tradeLifecycle envEntryTimeout).2 ∧
    Step.callActivity "UpdateOrderBookFinalActivity" ∉ (tradeLifecycle envEntryTimeout).2 ∧
    Action.CancelAllOrders
        (prepareTrade envEntryTimeout.signal envEntryTimeout.prepEnv).1.symbol
      ∈ cancelTradeActivity (prepareTrade envEntryTimeout.signal envEntryTimeout.prepEnv).1 ∧
    Action.SetOrderStatus
        (prepareTrade envEntryTimeout.signal envEntryTimeout.prepEnv).1.order_db_id "Cancelled"
      ∈ cancelTradeActivity (prepareTrade envEntryTimeout.signal envEntryTimeout.prepEnv).1 :=
  C3_entry_timeout envEntryTimeout
    (by with_unfolding_all decide) rfl rfl rfl

/-! ### C4: signal fan-out -/

/-- Claim C4 as stated is false on the read-failure arm: a
`GetSignalsActivity` failure surviving the retries raises inside
`DoTradeOrchestrator`, which has no handler, so the instance fails — it
does not complete with a descriptive result ("treated as empty").  No
children are scheduled, but the outcome is `Failed`, not `Completed`. -/
theorem C4_counterexample_read_failure_fails_instance :
    doTradeOrchestrator (Except.error "SourceUnavailable") =
      (OrchOutcome.Failed "SourceUnavailable", 0) ∧
    (doTradeOrchestrator (Except.error "SourceUnavailable")).1.isCompleted = false := by
  exact ⟨rfl, rfl⟩

/-- Claim C4 amended: on an empty signal set the fan-out completes
immediately with "No signals found." and schedules no children; on a
signal-read failure the error propagates and the orchestration instance
fails, again with no children scheduled; otherwise it schedules exactly
one `TradeExecutionOrchestrator` sub-orchestration per signal, joins on
all of them, and completes reporting the count processed. -/
theorem C4_fanout_amended :
    (∀ e : String, doTradeOrchestrator (Except.error e) = (OrchOutcome.Failed e, 0)) ∧
    doTradeOrchestrator (Except.ok []) = (OrchOutcome.Completed "No signals found.", 0) ∧
    (∀ signals : List Signal, signals ≠ [] →
       doTradeOrchestrator (Except.ok signals) =
         (OrchOutcome.Completed ("Processed " ++ toString signals.length ++ " signals."),
          signals.length)) := by
  refine ⟨fun e => rfl, rfl, ?_⟩
  intro signals hne
  simp [doTradeOrchestrator, List.isEmpty_iff, hne]

/-- Witness for C4 (amended) at three signals. -/
theorem C4_fanout_amended_witness :
    doTradeOrchestrator
        (Except.ok [sigLong100, sigLong100, sigLong100]) =
      (OrchOutcome.Completed "Processed 3 signals.", 3) := by
  have h := C4_fanout_amended.2.2 [sigLong100, sigLong100, sigLong100] (by simp)
  simpa using h

/-! ### C5: retry exhaustion -/

/-- Concrete fixture: entry fills on the first check, finalize succeeds,
then `MonitorStatusActivity` fails (post-retry) on the first wake. -/
def envMonitorCrash : LifecycleEnv :=
  { signal := sigLong100, prepEnv := envMarket 100,
    gw1 := Except.ok [{ symbol := "BTCUSDT", positionAmt := 1 }],
    gw2 := Except.ok [],
    cancelResult := Except.ok (), finalizeResult := Except.ok (),
    wakes := [{ elapsedHours := 4, monitorIsOpen := Except.error "gateway down",
                monitorZscore := 0, detectResult := Except.ok "TP",
                closeResult := Except.ok () }],
    finalTrades := [] }

/-- Claim C5 as stated is false: `MonitorStatusActivity` has no internal
handler, so when it fails `maxAttempts` times the failure raises into
`TradeExecutionOrchestrator`, which has no handler either — the
orchestration instance fails rather than receiving a resolved failure
result it could handle. -/
theorem C5_counterexample_unhandled_activity_failure :
    (tradeLifecycle envMonitorCrash).1 = OrchOutcome.Failed "gateway down" ∧
    (tradeLifecycle envMonitorCrash).1.isCompleted = false := by
  with_unfolding_all decide

/-- Claim C5 amended: after `max_number_of_attempts` (3) failed attempts
the scheduler surfaces the failure by re-raising it at the orchestrator's
call site.  Only activities that swallow their own exceptions produce a
resolved result the workflow handles: `CheckPositionActivity` always
resolves (its catch-all returns `false`, giving the treat-as-not-filled
fallback before the retry policy can even fire), while an activity
without an internal handler (`MonitorStatusActivity`) that fails
post-retry makes the instance fail. -/
theorem C5_retry_exhaustion_amended :
    (∀ e : String,
       retryResolve (α := Bool) max_number_of_attempts (fun _ => Except.error e) =
         Except.error e) ∧
    (∀ (g : Except String (List PositionInfo)) (s : String),
       resolves (checkPositionAttempt g s) = true) ∧
    (∀ (env : LifecycleEnv) (w : WakeObs) (rest : List WakeObs) (e : String),
       (prepareTrade env.signal env.prepEnv).1.order_placed = true →
       checkPositionActivity env.gw1 env.signal.CoinSymbol = true →
       env.finalizeResult = Except.ok () →
       env.wakes = w :: rest →
       w.monitorIsOpen = Except.error e →
       (tradeLifecycle env).1 = OrchOutcome.Failed e) := by
  refine ⟨fun e => rfl, fun g s => rfl, ?_⟩
  intro env w rest e hplaced hfilled hfin hwakes hmon
  obtain ⟨ti, acts, hp⟩ : ∃ ti acts, prepareTrade env.signal env.prepEnv = (ti, acts) :=
    ⟨_, _, rfl⟩
  rw [hp] at hplaced
  have hplaced' : ti.order_placed = true := hplaced
  simp [tradeLifecycle, hp, hplaced', hfilled, hfin, hwakes, monitorLoop, hmon]

/-- Witness for C5 (amended) on a concrete environment whose first
monitoring wake fails with a distinct error. -/
theorem C5_retry_exhaustion_amended_witness :
    (tradeLifecycle
        { envMonitorCrash with
          wakes := [{ elapsedHours := 4, monitorIsOpen := Except.error "binance timeout",
                      monitorZscore := 0, detectResult := Except.ok "TP",
                      closeResult := Except.ok () }] }).1 =
      OrchOutcome.Failed "binance timeout" :=
  C5_retry_exhaustion_amended.2.2
    { envMonitorCrash with
      wakes := [{ elapsedHours := 4, monitorIsOpen := Except.error "binance timeout",
                  monitorZscore := 0, detectResult := Except.ok "TP",
                  closeResult := Except.ok () }] }
    { elapsedHours := 4, monitorIsOpen := Except.error "binance timeout",
      monitorZscore := 0, detectResult := Except.ok "TP", closeResult := Except.ok () }
    [] "binance timeout"
    (by with_unfolding_all decide) (by with_unfolding_all decide) rfl rfl rfl

/-! ### C6: monitoring-window timer arithmetic -/

/-- Claim C6 meets a code bug at month ends: within a month the computed
wake is minute 15, second 0 of the next 4-hour boundary (second and third
conjuncts, including a wrap past midnight on a non-final day), but on the
last day of a month with the boundary wrapping past midnight the code
evaluates `now.replace(day=now.day+1, …)` with an out-of-range day and
raises `ValueError` (first conjunct: the model returns `none`) instead of
producing the first-of-next-month 00:15 wake the claim describes. -/
theorem C6_next_wake_month_end_bug :
    nextMonitorCheck { year := 2025, month := 1, day := 31, hour := 20, minute := 30,
                       second := 0, microsecond := 0 } = none ∧
    nextMonitorCheck { year := 2025, month := 1, day := 30, hour := 21, minute := 5,
                       second := 44, microsecond := 123 } =
      some { year := 2025, month := 1, day := 31, hour := 0, minute := 15,
             second := 0, microsecond := 0 } ∧
    nextMonitorCheck { year := 2025, month := 6, day := 15, hour := 3, minute := 59,
                       second := 2, microsecond := 9 } =
      some { year := 2025, month := 6, day := 15, hour := 4, minute := 15,
             second := 0, microsecond := 0 } ∧
    nextMonitorCheck { year := 2024, month := 2, day := 29, hour := 22, minute := 0,
                       second := 0, microsecond := 0 } = none := by
  decide

/-! ### C7: delisted symbol -/

/-- Claim C7: when the margin-type change raises a `BinanceAPIException`
whose code is -1121 or whose message contains "Invalid symbol", the
activity deactivates the symbol in CoinInfoTable with the deactivation
reason, returns a not-placed result (so the lifecycle exits as skipped),
performs no other external action (no order row, no orders), and — being
handled inside the activity, which therefore resolves — is never retried
as transient. -/
theorem C7_delisted_deactivates_and_skips (signal : Signal) (env : PrepareEnv)
    (code : Int) (msg : String)
    (hpos : env.positions = Except.ok [])
    (hmargin : env.marginOutcome = MarginOutcome.apiError code msg)
    (hdel : code = -1121 ∨ strContains msg "Invalid symbol" = true) :
    prepareTrade signal env =
      (PrepareResult.notPlaced signal "Delisted symbol",
       [Action.DeactivateSymbol signal.CoinSymbol
          "Delisted / Invalid Symbol detected during trade setup"]) ∧
    retryResolve max_number_of_attempts (fun _ => Except.ok (prepareTrade signal env)) =
      Except.ok (prepareTrade signal env) ∧
    (∀ lenv : LifecycleEnv, lenv.signal = signal → lenv.prepEnv = env →
       (tradeLifecycle lenv).1 =
         OrchOutcome.Completed
           ("Trade skipped for " ++ signal.CoinSymbol ++ ": " ++ "Delisted symbol")) := by
  have hmain : prepareTrade signal env =
      (PrepareResult.notPlaced signal "Delisted symbol",
       [Action.DeactivateSymbol signal.CoinSymbol
          "Delisted / Invalid Symbol detected during trade setup"]) := by
    simp only [prepareTrade, hpos, List.find?]
    simp only [prepareTrade.prepareTradeAfterPositionCheck, hmargin]
    rw [if_pos hdel]
  refine ⟨hmain, rfl, ?_⟩
  intro lenv h1 h2
  simp [tradeLifecycle, h1, h2, hmain, PrepareResult.notPlaced]

/-- Witness for C7: a concrete -1121 "Invalid symbol" error on the margin
call leads to deactivation and a skipped lifecycle. -/
theorem C7_delisted_deactivates_and_skips_witness :
    prepareTrade sigLong100
        { envMarket 100 with
          marginOutcome := MarginOutcome.apiError (-1121) "APIError: Invalid symbol." } =
      (PrepareResult.notPlaced sigLong100 "Delisted symbol",
       [Action.DeactivateSymbol sigLong100.CoinSymbol
          "Delisted / Invalid Symbol detected during trade setup"]) :=
  (C7_delisted_deactivates_and_skips sigLong100
    { envMarket 100 with
      marginOutcome := MarginOutcome.apiError (-1121) "APIError: Invalid symbol." }
    (-1121) "APIError: Invalid symbol."
    rfl rfl (Or.inl rfl)).1

/-! ### C8: alert notifications -/

/-- Claim C8: `send_email_alert` never raises to its caller for any
subject, body, category or failure of the underlying email service — the
send is wrapped in a catch-all whose handler only logs, and when the
service fails the call still resolves (with the failure logged), so a
notification failure cannot change the outcome of the activity or
workflow that sent it. -/
theorem C8_notify_never_raises :
    (∀ (env : EmailEnv) (subject body key : String),
       resolves (send_email_alert env subject body key) = true) ∧
    (∀ (c : Option String) (e subject body key : String),
       (c.getD "true").toLower = "true" →
       send_email_alert { configSetting := c, sendOutcome := Except.error e }
           subject body key =
         Except.ok (EmailEffect.failureLogged e)) := by
  constructor
  · intro env subject body key
    rcases env with ⟨c, s⟩
    cases s
    all_goals
      simp only [send_email_alert]
      split
      · rfl
      · rfl
  · intro c e subject body key h
    simp [send_email_alert, h]

/-- Witness for C8: with the category enabled by default (unset config)
and a failing email service, the call resolves with the failure logged. -/
theorem C8_notify_never_raises_witness :
    ((Option.none.getD "true").toLower = "true") ∧
    send_email_alert { configSetting := none, sendOutcome := Except.error "smtp down" }
        "Trade Entry: BTCUSDT" "body" "TradeEntry" =
      Except.ok (EmailEffect.failureLogged "smtp down") :=
  ⟨by with_unfolding_all rfl,
   C8_notify_never_raises.2 none "smtp down" "Trade Entry: BTCUSDT" "body" "TradeEntry"
     (by with_unfolding_all rfl)⟩

/-! ### C9: CheckPositionActivity totality -/

/-- Claim C9: `CheckPositionActivity` is total and never signals failure —
any gateway error and a missing matching entry both return `false`, so
the executor always reports success (the retry policy never fires), a
gateway outage is indistinguishable from "order not filled", and a
lifecycle whose entry order actually filled (the true position list shows
an open position) is cancelled as timed out when the gateway is down at
both checks. -/
theorem C9_check_position_swallows_errors :
    (∀ e s : String, checkPositionActivity (Except.error e) s = false) ∧
    (∀ (ps : List PositionInfo) (s : String),
       ps.find? (fun i => i.symbol == s) = none →
       checkPositionActivity (Except.ok ps) s = false) ∧
    (∀ (g : Except String (List PositionInfo)) (s : String),
       resolves (checkPositionAttempt g s) = true) ∧
    (∀ e s : String,
       checkPositionActivity (Except.error e) s = checkPositionActivity (Except.ok []) s) ∧
    (∀ (env : LifecycleEnv) (truth : List PositionInfo) (e1 e2 : String),
       (prepareTrade env.signal env.prepEnv).1.order_placed = true →
       checkPositionActivity (Except.ok truth) env.signal.CoinSymbol = true →
       env.gw1 = Except.error e1 → env.gw2 = Except.error e2 →
       env.cancelResult = Except.ok () →
       (tradeLifecycle env).1 =
         OrchOutcome.Completed ("Entry timed out for " ++ env.signal.CoinSymbol ++ ".") ∧
       Step.callActivity "CancelTradeActivity" ∈ (tradeLifecycle env).2) := by
  refine ⟨fun e s => rfl, ?_, fun g s => rfl, fun e s => rfl, ?_⟩
  · intro ps s h
    simp [checkPositionActivity, h]
  · intro env truth e1 e2 hplaced _htruth hg1 hg2 hcancel
    obtain ⟨ti, acts, hp⟩ : ∃ ti acts, prepareTrade env.signal env.prepEnv = (ti, acts) :=
      ⟨_, _, rfl⟩
    rw [hp] at hplaced
    have hplaced' : ti.order_placed = true := hplaced
    have key : tradeLifecycle env =
        (OrchOutcome.Completed ("Entry timed out for " ++ env.signal.CoinSymbol ++ "."),
         [Step.callActivity "PrepareTradeActivity",
          Step.timer, Step.callActivity "CheckPositionActivity",
          Step.timer, Step.callActivity "CheckPositionActivity",
          Step.callActivity "CancelTradeActivity"]) := by
      simp [tradeLifecycle, hp, hplaced', hg1, hg2, hcancel, checkPositionActivity]
    rw [key]
    exact ⟨rfl, by simp⟩

/-- Witness for C9: the gateway is down at both checks while the true
position list shows an open 1-unit position; the lifecycle still times
out the entry and calls the cancel activity. -/
theorem C9_check_position_swallows_errors_witness :
    ((tradeLifecycle
        { envEntryTimeout with
          gw1 := Except.error "ConnectionError", gw2 := Except.error "ReadTimeout" }).1 =
      OrchOutcome.Completed ("Entry timed out for " ++ sigLong100.CoinSymbol ++ ".")) ∧
    Step.callActivity "CancelTradeActivity" ∈
      (tradeLifecycle
        { envEntryTimeout with
          gw1 := Except.error "ConnectionError", gw2 := Except.error "ReadTimeout" }).2 :=
  C9_check_position_swallows_errors.2.2.2.2
    { envEntryTimeout with
      gw1 := Except.error "ConnectionError", gw2 := Except.error "ReadTimeout" }
    [{ symbol := "BTCUSDT", positionAmt := 1 }] "ConnectionError" "ReadTimeout"
    (by with_unfolding_all decide) (by with_unfolding_all decide) rfl rfl rfl

/-! ### C10: final order-book report -/

/-- Claim C10: the final report always sets the row to terminal status
`Profit/Loss`; with no trades returned since entry it records P&L 0 and
exit price 0, and otherwise the exit price is the last returned trade's
price and the P&L is the sum of `realizedPnl` over all returned trades. -/
theorem C10_final_report_empty_and_nonempty :
    (∀ et : String, updateOrderBookFinal et [] =
       ({ status := "Profit/Loss", exitType := et, exitPrice := 0, profitLoss := 0 }, 0)) ∧
    (∀ (et : String) (ts : List BTrade) (h : ts ≠ []),
       (updateOrderBookFinal et ts).1.status = "Profit/Loss" ∧
       (updateOrderBookFinal et ts).1.exitType = et ∧
       (updateOrderBookFinal et ts).1.exitPrice = (ts.getLast h).price ∧
       (updateOrderBookFinal et ts).1.profitLoss = (ts.map BTrade.realizedPnl).sum ∧
       (updateOrderBookFinal et ts).2 = (ts.map BTrade.realizedPnl).sum) := by
  refine ⟨fun et => rfl, ?_⟩
  intro et ts h
  refine ⟨rfl, rfl, ?_, rfl, rfl⟩
  simp [updateOrderBookFinal, List.getLast?_eq_getLast ts h]

/-- Witness for C10 at a concrete two-trade history: exit price is the
last trade's price (102), P&L the sum of realized pnl (3). -/
theorem C10_final_report_empty_and_nonempty_witness :
    ((updateOrderBookFinal "Level0"
        [{ price := 100, realizedPnl := 5 }, { price := 102, realizedPnl := -2 }]).1.status =
       "Profit/Loss") ∧
    (updateOrderBookFinal "Level0"
        [{ price := 100, realizedPnl := 5 }, { price := 102, realizedPnl := -2 }]).1.exitPrice =
      ([{ price := 100, realizedPnl := 5 },
        { price := 102, realizedPnl := -2 }].getLast (by simp) : BTrade).price :=
  ⟨(C10_final_report_empty_and_nonempty.2 "Level0"
      [{ price := 100, realizedPnl := 5 }, { price := 102, realizedPnl := -2 }]
      (by simp)).1,
   (C10_final_report_empty_and_nonempty.2 "Level0"
      [{ price := 100, realizedPnl := 5 }, { price := 102, realizedPnl := -2 }]
      (by simp)).2.2.1⟩

end BotTrader
